import Mathlib

/-!
Shallow embedding of the property-sales voice agent (allwin107/property-sales-voice-agent)
for checking the natural-language specification against the code.

Each definition is translated from a concrete place in the Python source:
  * `src/services/llm_service.py`  — `GroqLLMService.generate_response` and its parse pipeline
  * `src/main.py`                  — `handle_transcription` (the per-turn orchestrator)
  * `src/services/sarvam_tts_service.py` — segment grouping and the producer/consumer
    streaming loop of `SarvamTTSService.synthesize`, and its `stop`
  * `src/services/tts_service.py`  — the cancellation discipline of
    `CartesiaTTSService.synthesize`/`stop`
  * `src/services/enquiry_storage.py` — `EnquiryStorage.update_enquiry`
-/

namespace VoiceAgent

/-! ### Configuration constants (src/config.py) -/

/-- `config.GROQ_MODEL` default (config.py line 18); this is the only model
`generate_response` ever puts in an API payload (llm_service.py line 386). -/
def GROQ_MODEL : String := "llama-3.3-70b-versatile"

/-- `config.GROQ_FALLBACK_MODEL` default (config.py line 49).  Defined in the
configuration but never referenced anywhere in `llm_service.py`. -/
def GROQ_FALLBACK_MODEL : String := "llama-3.1-8b-instant"

/-! ### LLM service embedding (src/services/llm_service.py)

`GroqLLMService` is initialized (in `main.py`) with string-typed dynamic fields
only (`BRIGADE_ETERNIA_DYNAMIC_FIELDS`; every `"type"` is `"string"`, default
`"none"`), so the generated pydantic model has fields of type `Union[str, None]`
with default `"none"` plus a `response : str` field with default `""`.  We model
a declared slot configuration as the list of its field names.

A JSON value sitting in a payload field is either a valid string or something
that fails validation against `Union[str, None]` (e.g. an object or a number);
pydantic v2 does not coerce non-strings to `str`. -/

/-- A field value found in the raw LLM payload: a string (validates), or a
non-string JSON value (fails validation against the string-typed slot). -/
inductive JField where
  | vstr (s : String)
  | invalid
deriving DecidableEq, Repr

/-- The body `content` returned by the chat completion.
`jsonObj strictJsonOk obj`: `json.loads` accepts the content and yields the
object `obj`; `strictJsonOk` records whether the stricter pydantic JSON reader
(`model_validate_json`) also accepts the raw text (it rejects some inputs that
`json.loads` allows, e.g. `NaN` literals).  `notJson`: both readers fail. -/
inductive RawPayload where
  | notJson
  | jsonObj (strictJsonOk : Bool) (obj : List (String × JField))
deriving DecidableEq, Repr

/-- Outcome of the single `session.post` to the Groq URL
(llm_service.py lines 400-419):
  * `networkError` — the request or `response.json()` raises;
  * `badEnvelope`  — body parses but has no `choices[0].message.content`
    (the subscription raises `KeyError`);
  * `apiError`     — body carries an `error` key (this is how rate-limit
    failures surface: line 413 raises `Exception`);
  * `ok payload`   — a `content` string was extracted. -/
inductive ApiOutcome where
  | networkError (msg : String)
  | badEnvelope
  | apiError (msg : String)
  | ok (payload : RawPayload)
deriving DecidableEq, Repr

/-- Python exceptions that the embedding distinguishes. -/
inductive PyErr where
  | typeError
  | valueError
deriving DecidableEq, Repr

/-- The dictionary returned by `generate_response` (llm_service.py lines
483-493 and 510-521), restricted to the parts the claims are about.
`slots` is the per-field part of `raw_model_data` (field name → string). -/
structure GenResult where
  responseText : String
  slots : List (String × String)
  shouldEndCall : Bool
  extractedFields : List (String × String)
deriving DecidableEq, Repr

/-- Hard-coded recovery reply used when the permissive re-parse finds no
`response` key (llm_service.py line 453). -/
def apologyFormat : String := "I\x27m having trouble with my response format. Could you repeat that?"

/-- Hard-coded ultimate-fallback apology (llm_service.py line 463). -/
def apologyProcessing : String := "I\x27m having trouble processing that. Could you please repeat?"

/-- Hard-coded apology of the outer error handler (llm_service.py line 502). -/
def apologyConnection : String := "I\x27m having trouble with my connection. Let\x27s continue - could you repeat that?"

/-- Farewell phrases scanned for end-of-call detection (llm_service.py line 476). -/
def farewellPhrases : List String := ["goodbye", "bye", "take care", "have a great day"]

/-- `pat in s` for Python strings: `s.splitOn pat` has at least two pieces
exactly when `pat` occurs in `s`. -/
def containsSub (s pat : String) : Bool := decide (2 ≤ (s.splitOn pat).length)

/-- `should_end_call` computation (llm_service.py lines 474-477). -/
def shouldEndCallOf (resp : String) : Bool :=
  farewellPhrases.any (fun p => containsSub resp.toLower p)

/-- Does an optional payload value validate against `Union[str, None]` with
default `"none"`?  An absent field is fine (the default applies). -/
def fieldOkOpt : Option JField → Bool
  | none => true
  | some (JField.vstr _) => true
  | some JField.invalid => false

/-- Whether every declared slot and the `response` field of `obj` carry
validation-safe values (absent or string). -/
def allFieldsOk (fields : List String) (obj : List (String × JField)) : Bool :=
  fields.all (fun f => fieldOkOpt (obj.lookup f)) && fieldOkOpt (obj.lookup "response")

/-- Slot value produced for a field of the payload: the string if the field is
a string, otherwise the default `"none"` (pydantic default for absent fields,
and the permissive-path lookup with default none). -/
def strValOf : Option JField → String
  | some (JField.vstr s) => s
  | some JField.invalid => "none"
  | none => "none"

/-- All-default slot assignment (used by the ultimate fallback and the outer
error handler: llm_service.py lines 465-467 and 504-506). -/
def defaultSlots (fields : List String) : List (String × String) :=
  fields.map (fun f => (f, "none"))

/-- The parse pipeline of `generate_response` applied to the extracted
`content` (llm_service.py lines 429-468):
  * strict: `ResponseModel.model_validate_json(content)` succeeds when the
    strict JSON reader accepts the text and every value validates; absent
    slots fall back to the default `"none"`, an absent `response` to `""`;
  * permissive: on strict failure, `json.loads` plus per-field lookup defaulting to none
    builds a candidate that is validated again (it fails exactly when some
    present value is invalid, since the defaults substituted for absent keys
    are valid strings); the `response` default here is `apologyFormat`;
  * ultimate: all slots `"none"` with the `apologyProcessing` reply.
Returns the reply text and the slot part of the parsed model. -/
def parseStructured (fields : List String) : RawPayload → String × List (String × String)
  | RawPayload.notJson => (apologyProcessing, defaultSlots fields)
  | RawPayload.jsonObj strictJsonOk obj =>
    if strictJsonOk && allFieldsOk fields obj then
      ((match obj.lookup "response" with
        | some (JField.vstr s) => s
        | _ => ""),
       fields.map (fun f => (f, strValOf (obj.lookup f))))
    else if allFieldsOk fields obj then
      ((match obj.lookup "response" with
        | some (JField.vstr s) => s
        | _ => apologyFormat),
       fields.map (fun f => (f, strValOf (obj.lookup f))))
    else
      (apologyProcessing, defaultSlots fields)

/-- `GroqLLMService.generate_response` (llm_service.py lines 337-521).

The first component of the result is the list of models named in API requests
actually issued, in order — the method builds exactly one payload, with
`config.GROQ_MODEL` (line 386), and performs exactly one `session.post`
(line 400); `max_retries` and `retry_delay` (lines 397-398) are assigned and
never read, and no retry or fallback-model request exists in the method body.

The second component is the returned dictionary, or the exception raised:
an uninitialized service raises `ValueError` (lines 354-355); once
initialized, every provider or parsing failure is absorbed — the whole
interaction sits in a `try` whose bare `except` (line 495) returns the
`apologyConnection` result with all slots defaulted. -/
def generateResponse (fields : List String) (initialized : Bool) (outcome : ApiOutcome) :
    List String × Except PyErr GenResult :=
  if initialized then
    match outcome with
    | ApiOutcome.networkError _ =>
        ([GROQ_MODEL], Except.ok
          { responseText := apologyConnection
            slots := defaultSlots fields
            shouldEndCall := false
            extractedFields := [] })
    | ApiOutcome.badEnvelope =>
        ([GROQ_MODEL], Except.ok
          { responseText := apologyConnection
            slots := defaultSlots fields
            shouldEndCall := false
            extractedFields := [] })
    | ApiOutcome.apiError _ =>
        ([GROQ_MODEL], Except.ok
          { responseText := apologyConnection
            slots := defaultSlots fields
            shouldEndCall := false
            extractedFields := [] })
    | ApiOutcome.ok payload =>
        let parsed := parseStructured fields payload
        ([GROQ_MODEL], Except.ok
          { responseText := parsed.1
            slots := parsed.2
            shouldEndCall := shouldEndCallOf parsed.1
            extractedFields := parsed.2 })
  else ([], Except.error PyErr.valueError)

/-- The failure class of an interaction: the provider call failed, its envelope
was unusable, or the content could not be parsed as JSON at all. -/
def llmFailureClass : ApiOutcome → Bool
  | ApiOutcome.networkError _ => true
  | ApiOutcome.badEnvelope => true
  | ApiOutcome.apiError _ => true
  | ApiOutcome.ok RawPayload.notJson => true
  | ApiOutcome.ok (RawPayload.jsonObj _ _) => false

/-- Slot list of a `generate_response` result (empty only on a raised error). -/
def genSlots (fields : List String) (outcome : ApiOutcome) : List (String × String) :=
  match (generateResponse fields true outcome).2 with
  | Except.ok r => r.slots
  | Except.error _ => []

end VoiceAgent

namespace VoiceAgent

/-! ### Orchestrator turn handling (src/main.py, `handle_transcription`)

`handle_transcription` (main.py lines 291-363) receives a final transcript and
runs one conversational turn.  Python binds the keyword arguments of a call against
the signature of the callee before the body runs; an unexpected keyword raises
`TypeError` at the call site.  We embed the binding check and the observable
turn effects (TTS stop, history, storage updates, spoken reply,
cleanup scheduling). -/

/-- Parameter names of `GroqLLMService.generate_response`
(llm_service.py lines 337-341), `self` aside.  The signature has no
`**kwargs` catch-all. -/
def generateResponseParams : List String := ["user_input", "format_values"]

/-- Keyword-argument names used at the call site in `handle_transcription`
(main.py lines 311-314). -/
def orchestratorCallKwargs : List String := ["user_input", "conversation_history"]

/-- Python keyword binding: every supplied keyword must name a parameter
(there is no `**kwargs`); otherwise the call raises `TypeError` before the
body of the callee runs. -/
def kwargsAccepted (params kwargs : List String) : Bool :=
  kwargs.all (fun k => params.contains k)

/-- One `storage.update_enquiry` call made by the turn, restricted to the keys
the claims are about (`status` and the `visit_scheduled` date/time);
`none` status models an update touching only `call_data`. -/
structure EnquiryUpdate where
  setStatus : Option String
  visitDate : Option String
  visitTime : Option String
deriving DecidableEq, Repr

/-- Observable effects of one `handle_transcription` invocation. -/
structure TurnEffects where
  ttsStopped : Bool
  historyAfter : List (String × String)
  llmRequests : Nat
  storageUpdates : List EnquiryUpdate
  spoken : Option String
  cleanupRequested : Bool
  outcome : Option PyErr
deriving DecidableEq, Repr

/-- The reserved sentinel transcript (main.py line 292). -/
def forceStopSentinel : String := "__FORCE_STOP__"

/-- `handle_transcription` (main.py lines 291-363).

`llm` stands for the result `generate_response` would deliver; it is only
consulted in the branch where the keyword binding succeeds (main.py lines
316-363), which is unreachable because `conversation_history` is not a
parameter of `generate_response`.  On the failing branch the effects are
exactly what happened before the call: TTS stopped (line 305) and the user
turn appended to the session history (line 308). -/
def handleTranscription (llm : GenResult) (text : String)
    (history : List (String × String)) (endingSoonBefore : Bool) : TurnEffects :=
  if text = forceStopSentinel then
    { ttsStopped := true, historyAfter := history, llmRequests := 0, storageUpdates := [],
      spoken := none, cleanupRequested := false, outcome := none }
  else
    let hist1 := history ++ [("user", text)]
    if kwargsAccepted generateResponseParams orchestratorCallKwargs then
      let aiText := llm.responseText
      let vd := llm.slots.lookup "visit_date"
      let vt := llm.slots.lookup "visit_time"
      let booked := decide (vd ≠ some "none") && decide (vt ≠ some "none")
      let updates1 : List EnquiryUpdate :=
        if booked then
          [{ setStatus := some "site_visit_booked", visitDate := vd, visitTime := vt }]
        else []
      let endingSoon := endingSoonBefore || booked
      let hist2 := hist1 ++ [("assistant", aiText)]
      let updates2 :=
        if endingSoon then updates1
        else updates1 ++ [{ setStatus := none, visitDate := none, visitTime := none }]
      { ttsStopped := true, historyAfter := hist2, llmRequests := 1,
        storageUpdates := updates2, spoken := some aiText,
        cleanupRequested := endingSoon || llm.shouldEndCall, outcome := none }
    else
      { ttsStopped := true, historyAfter := hist1, llmRequests := 0, storageUpdates := [],
        spoken := none, cleanupRequested := false, outcome := some PyErr.typeError }

/-- Concrete LLM result for the booking scenario of the spec: both visit slots
extracted, as `generate_response` would report them if it were reachable. -/
def bookedTurnLLM : GenResult :=
  { responseText := "Perfect! Saturday at 11 AM it is. See you at the site!"
    slots := [("visit_date", "Saturday"), ("visit_time", "11 AM")]
    shouldEndCall := false
    extractedFields := [("visit_date", "Saturday"), ("visit_time", "11 AM")] }

end VoiceAgent

namespace VoiceAgent

/-- Helper: looking up a key of a keyed map over the very key list always
finds the entry built for that key. -/
theorem lookup_map_self {β : Type} (v : String → β) {f : String} :
    ∀ {l : List String}, f ∈ l → (l.map (fun g => (g, v g))).lookup f = some (v f) := by
  intro l
  induction l with
  | nil => intro h; cases h
  | cons a t ih =>
    intro h
    by_cases hfa : f = a
    · subst hfa
      simp [List.lookup]
    · have hne : (f == a) = false := by simpa using hfa
      have hmem : f ∈ t := by
        rcases List.mem_cons.mp h with h1 | h1
        · exact absurd h1 hfa
        · exact h1
      simp [List.lookup, hne, ih hmem]

/-- Helper: the slot map `generate_response` hands back for a JSON-object
payload depends only on whether every value validates: the full slot map on
success of either the strict or the permissive parse, the all-default map on
the ultimate fallback. -/
theorem genSlots_ok_jsonObj (fields : List String) (strictOk : Bool)
    (obj : List (String × JField)) :
    genSlots fields (ApiOutcome.ok (RawPayload.jsonObj strictOk obj)) =
      (if allFieldsOk fields obj then fields.map (fun g => (g, strValOf (obj.lookup g)))
       else defaultSlots fields) := by
  by_cases h2 : allFieldsOk fields obj = true
  · cases strictOk <;> simp [genSlots, generateResponse, parseStructured, h2]
  · cases strictOk <;> simp [genSlots, generateResponse, parseStructured, h2]

end VoiceAgent

namespace VoiceAgent

/-- C1: for every non-sentinel final transcript, `handle_transcription` calls
`generate_response` with the keyword `conversation_history`, which the
signature `(user_input, format_values)` does not accept, so the turn raises
`TypeError` before any LLM request is made and no reply is spoken. -/
theorem C1_turn_raises_typeerror (llm : GenResult) (text : String)
    (history : List (String × String)) (endingSoonBefore : Bool)
    (h : text ≠ forceStopSentinel) :
    (handleTranscription llm text history endingSoonBefore).outcome = some PyErr.typeError ∧
    (handleTranscription llm text history endingSoonBefore).llmRequests = 0 ∧
    (handleTranscription llm text history endingSoonBefore).spoken = none := by
  have hk : kwargsAccepted generateResponseParams orchestratorCallKwargs = false := by decide
  simp [handleTranscription, h, hk]

/-- Witness for C1 at the concrete transcript `"hello"`. -/
theorem C1_turn_raises_typeerror_witness :
    (handleTranscription bookedTurnLLM "hello" [] false).outcome = some PyErr.typeError ∧
    (handleTranscription bookedTurnLLM "hello" [] false).llmRequests = 0 ∧
    (handleTranscription bookedTurnLLM "hello" [] false).spoken = none :=
  C1_turn_raises_typeerror bookedTurnLLM "hello" [] false (by decide)

/-- C9 (code bug): on the booking turn of the scenario in the spec (visit date and
time both extracted), `handle_transcription` dies with the `TypeError` of C1
before the slot check, so no storage update is made — the stored status
never becomes `site_visit_booked` — no reply is spoken, and no teardown is
scheduled. -/
theorem C9_booking_turn_never_happens :
    handleTranscription bookedTurnLLM "11 AM" [("user", "Saturday")] false =
      { ttsStopped := true
        historyAfter := [("user", "Saturday"), ("user", "11 AM")]
        llmRequests := 0
        storageUpdates := []
        spoken := none
        cleanupRequested := false
        outcome := some PyErr.typeError } := by decide

/-- C2: on an initialized service `generate_response` never raises, and on a
provider failure (network error, unusable envelope, API error body) or a
parsing failure (content that is not JSON) it returns one of the hard-coded
apologies with every slot at the default `"none"`. -/
theorem C2_generate_response_never_raises (fields : List String) (outcome : ApiOutcome)
    (hfail : llmFailureClass outcome = true) :
    (∀ o : ApiOutcome, ∃ r, (generateResponse fields true o).2 = Except.ok r) ∧
    (∃ r, (generateResponse fields true outcome).2 = Except.ok r ∧
      (r.responseText = apologyConnection ∨ r.responseText = apologyProcessing) ∧
      r.slots = defaultSlots fields) := by
  constructor
  · intro o
    cases o <;> exact ⟨_, rfl⟩
  · cases outcome with
    | networkError m => exact ⟨_, rfl, Or.inl rfl, rfl⟩
    | badEnvelope => exact ⟨_, rfl, Or.inl rfl, rfl⟩
    | apiError m => exact ⟨_, rfl, Or.inl rfl, rfl⟩
    | ok payload =>
      cases payload with
      | notJson => exact ⟨_, rfl, Or.inr rfl, rfl⟩
      | jsonObj s o => simp [llmFailureClass] at hfail

/-- Witness for C2 at a concrete field list and a rate-limit style API error. -/
theorem C2_generate_response_never_raises_witness :
    (∀ o : ApiOutcome, ∃ r, (generateResponse ["visit_date"] true o).2 = Except.ok r) ∧
    (∃ r, (generateResponse ["visit_date"] true (ApiOutcome.apiError "rate limit")).2
        = Except.ok r ∧
      (r.responseText = apologyConnection ∨ r.responseText = apologyProcessing) ∧
      r.slots = defaultSlots ["visit_date"]) :=
  C2_generate_response_never_raises ["visit_date"] (ApiOutcome.apiError "rate limit") (by decide)

/-- C3 (code bug): a rate-limit failure (an `error` body from the provider)
produces exactly one API request, against the primary model only — the
fallback model is never requested, no retry happens — and the call returns
the connection apology immediately. -/
theorem C3_rate_limit_no_retry :
    (generateResponse ["visit_date"] true (ApiOutcome.apiError "rate_limit_exceeded")).1
        = [GROQ_MODEL] ∧
    GROQ_FALLBACK_MODEL ∉
      (generateResponse ["visit_date"] true (ApiOutcome.apiError "rate_limit_exceeded")).1 ∧
    (generateResponse ["visit_date"] true (ApiOutcome.apiError "rate_limit_exceeded")).2
        = Except.ok
          { responseText := apologyConnection
            slots := [("visit_date", "none")]
            shouldEndCall := false
            extractedFields := [] } := by
  refine ⟨rfl, by decide, rfl⟩

/-- C4: for every structured response path (strict parse, permissive
fallback, error fallback) every declared slot key is present in the parsed
slot map, and its value is `"none"` whenever the slot is absent from, or
carries an invalid value in, the raw JSON payload. -/
theorem C4_slots_always_present (fields : List String) (f : String) (outcome : ApiOutcome)
    (hf : f ∈ fields) :
    (∃ v, (genSlots fields outcome).lookup f = some v) ∧
    (∀ (strictOk : Bool) (obj : List (String × JField)),
      outcome = ApiOutcome.ok (RawPayload.jsonObj strictOk obj) →
      (obj.lookup f = none ∨ obj.lookup f = some JField.invalid) →
      (genSlots fields outcome).lookup f = some "none") := by
  have hdef : (defaultSlots fields).lookup f = some "none" :=
    lookup_map_self (fun _ => "none") hf
  have hmap : ∀ obj : List (String × JField),
      (fields.map (fun g => (g, strValOf (obj.lookup g)))).lookup f
        = some (strValOf (obj.lookup f)) := fun obj => lookup_map_self _ hf
  constructor
  · cases outcome with
    | networkError m => exact ⟨"none", hdef⟩
    | badEnvelope => exact ⟨"none", hdef⟩
    | apiError m => exact ⟨"none", hdef⟩
    | ok payload =>
      cases payload with
      | notJson => exact ⟨"none", hdef⟩
      | jsonObj strictOk obj =>
        rw [genSlots_ok_jsonObj]
        by_cases h2 : allFieldsOk fields obj = true
        · rw [if_pos h2]; exact ⟨_, hmap obj⟩
        · rw [if_neg h2]; exact ⟨"none", hdef⟩
  · rintro strictOk obj rfl habs
    have hval : strValOf (obj.lookup f) = "none" := by
      rcases habs with h | h <;> rw [h] <;> rfl
    rw [genSlots_ok_jsonObj]
    by_cases h2 : allFieldsOk fields obj = true
    · rw [if_pos h2, hmap obj, hval]
    · rw [if_neg h2]; exact hdef

/-- Witness for C4: slot `visit_time` is reported as `"none"` when the raw
payload omits it, and is present in the output. -/
theorem C4_slots_always_present_witness :
    (∃ v, (genSlots ["visit_date", "visit_time"]
        (ApiOutcome.ok (RawPayload.jsonObj true [("visit_date", JField.vstr "Saturday")]))).lookup
        "visit_time" = some v) ∧
    (∀ (strictOk : Bool) (obj : List (String × JField)),
      ApiOutcome.ok (RawPayload.jsonObj true [("visit_date", JField.vstr "Saturday")])
          = ApiOutcome.ok (RawPayload.jsonObj strictOk obj) →
      (obj.lookup "visit_time" = none ∨ obj.lookup "visit_time" = some JField.invalid) →
      (genSlots ["visit_date", "visit_time"]
        (ApiOutcome.ok (RawPayload.jsonObj true [("visit_date", JField.vstr "Saturday")]))).lookup
        "visit_time" = some "none") :=
  C4_slots_always_present ["visit_date", "visit_time"] "visit_time"
    (ApiOutcome.ok (RawPayload.jsonObj true [("visit_date", JField.vstr "Saturday")]))
    (by decide)

end VoiceAgent

namespace VoiceAgent

/-! ### Sarvam TTS streaming (src/services/sarvam_tts_service.py, `synthesize`)

`synthesize` (lines 251-331) launches one network task per text segment, all
at once (lines 256-261), then awaits the tasks **in index order** (lines
264-276), pushing the audio of each successful segment onto a FIFO
`asyncio.Queue(maxsize=3)`; a failed task yields `None` (or raises into the
per-task `try`) and is skipped without retry (lines 273-276).  The consumer
loop (lines 288-316) drains the queue in FIFO order and streams each segment
to the sink.  Finally, lines 322-331 return `False` when `self._is_stopped`
was set (by `stop()`), `True` otherwise — per-segment failures do not touch
the return value.

We model an execution as an interleaving of events:
  * `complete i` — the network response for segment `i` arrives (any order);
  * `prod` — the producer, currently awaiting task `cursor`, resumes: it can
    only do so once that task has completed and the queue has room;
  * `cons` — the consumer dequeues one segment and streams it to the sink;
  * `stop` — `stop()` sets `_is_stopped` (line 338), which both loops check.
`results` gives the eventual payload of each segment request (`none` = failure).
Audio payloads are abstracted to `Nat` tokens. -/

/-- State of one `synthesize` execution. -/
structure SynthState where
  completed : List Nat
  cursor : Nat
  queue : List Nat
  delivered : List Nat
  stopped : Bool
deriving DecidableEq, Repr

/-- State at entry of `synthesize` (stop flag freshly reset, line 123). -/
def initSynth : SynthState :=
  { completed := [], cursor := 0, queue := [], delivered := [], stopped := false }

/-- Scheduler events of a `synthesize` execution. -/
inductive SEvent where
  | complete (i : Nat)
  | prod
  | cons
  | stop
deriving DecidableEq, Repr

/-- `asyncio.Queue(maxsize=3)` bound (line 253). -/
def queueMaxSize : Nat := 3

/-- Producer resumption (lines 264-276): `audio_data = await tasks[cursor]`
returns only once request `cursor` has completed; a successful payload is put
on the queue (blocking while the queue is full), a failed one is skipped. -/
def prodResume (s : SynthState) : Option (Option Nat) → SynthState
  | none => s
  | some (some a) =>
    if s.completed.contains s.cursor then
      if s.queue.length < queueMaxSize then
        { s with cursor := s.cursor + 1, queue := s.queue ++ [a] }
      else s
    else s
  | some none =>
    if s.completed.contains s.cursor then { s with cursor := s.cursor + 1 } else s

/-- Consumer resumption (lines 293-316): dequeue one completed segment and
stream it to the sink. -/
def consResume (s : SynthState) : List Nat → SynthState
  | [] => s
  | a :: rest => { s with queue := rest, delivered := s.delivered ++ [a] }

/-- One scheduler step.  An event that cannot fire (producer awaiting an
incomplete task or a full queue, consumer on an empty queue, either loop
after the stop flag) leaves the state unchanged. -/
def sStep (results : List (Option Nat)) (s : SynthState) : SEvent → SynthState
  | SEvent.complete i => { s with completed := i :: s.completed }
  | SEvent.prod => if s.stopped then s else prodResume s (results.get? s.cursor)
  | SEvent.cons => if s.stopped then s else consResume s s.queue
  | SEvent.stop => { s with stopped := true }

/-- Run a whole event schedule. -/
def sRun (results : List (Option Nat)) (s : SynthState) : List SEvent → SynthState
  | [] => s
  | e :: es => sRun results (sStep results s e) es

/-- The audio the sink has received plus what still sits in the queue is
exactly the successful audio of the already-awaited segments, in request
order. -/
def synthInv (results : List (Option Nat)) (s : SynthState) : Prop :=
  s.delivered ++ s.queue = (results.take s.cursor).filterMap id

theorem sStep_inv (results : List (Option Nat)) (s : SynthState) (e : SEvent)
    (h : synthInv results s) : synthInv results (sStep results s e) := by
  simp only [synthInv] at h ⊢
  cases e with
  | complete i => simpa [sStep] using h
  | prod =>
    by_cases hs : s.stopped
    · simpa [sStep, hs] using h
    · simp only [sStep, hs, Bool.false_eq_true, if_false]
      cases hget : results.get? s.cursor with
      | none => simpa [prodResume] using h
      | some r =>
        have hget2 : results[s.cursor]? = some r := by
          rw [← List.get?_eq_getElem?]; exact hget
        cases r with
        | some a =>
          by_cases hc : s.completed.contains s.cursor = true
          · have hcm : s.cursor ∈ s.completed := by simpa using hc
            by_cases hq : s.queue.length < queueMaxSize
            · simp only [prodResume]
              rw [if_pos hc, if_pos hq]
              show s.delivered ++ (s.queue ++ [a])
                  = ((results.take (s.cursor + 1)).filterMap id)
              rw [List.take_succ, List.filterMap_append, ← h, hget2]
              simp [List.append_assoc]
            · simpa [prodResume, hcm, hq] using h
          · have hcm : ¬ s.cursor ∈ s.completed := by simpa using hc
            simpa [prodResume, hcm] using h
        | none =>
          by_cases hc : s.completed.contains s.cursor = true
          · have hcm : s.cursor ∈ s.completed := by simpa using hc
            simp only [prodResume]
            rw [if_pos hc]
            show s.delivered ++ s.queue = ((results.take (s.cursor + 1)).filterMap id)
            rw [List.take_succ, List.filterMap_append, ← h, hget2]
            simp
          · have hcm : ¬ s.cursor ∈ s.completed := by simpa using hc
            simpa [prodResume, hcm] using h
  | cons =>
    by_cases hs : s.stopped
    · simpa [sStep, hs] using h
    · cases hq : s.queue with
      | nil => simpa [sStep, consResume, hs, hq] using h
      | cons a rest =>
        simp only [sStep, consResume, hs, Bool.false_eq_true, if_false, hq]
        show (s.delivered ++ [a]) ++ rest = ((results.take s.cursor).filterMap id)
        rw [List.append_assoc, ← h, hq]
        simp
  | stop => simpa [sStep] using h

theorem sRun_inv (results : List (Option Nat)) :
    ∀ (evs : List SEvent) (s : SynthState), synthInv results s →
      synthInv results (sRun results s evs) := by
  intro evs
  induction evs with
  | nil => intro s h; exact h
  | cons e es ih => intro s h; exact ih _ (sStep_inv results s e h)

/-- `sRun` distributes over schedule concatenation. -/
theorem sRun_append (results : List (Option Nat)) :
    ∀ (l₁ l₂ : List SEvent) (s : SynthState),
      sRun results s (l₁ ++ l₂) = sRun results (sRun results s l₁) l₂ := by
  intro l₁
  induction l₁ with
  | nil => intro l₂ s; rfl
  | cons e es ih => intro l₂ s; simp [sRun, ih]

/-- The stop flag only records whether a `stop` event has happened. -/
theorem sStep_stopped (results : List (Option Nat)) (s : SynthState) (e : SEvent) :
    (sStep results s e).stopped = (s.stopped || decide (e = SEvent.stop)) := by
  cases e with
  | complete i => simp [sStep]
  | prod =>
    by_cases hs : s.stopped
    · simp [sStep, hs]
    · have hs0 : s.stopped = false := by simpa using hs
      simp only [sStep, hs, Bool.false_eq_true, if_false]
      cases results.get? s.cursor with
      | none => simp [prodResume, hs0]
      | some r =>
        by_cases hc : s.cursor ∈ s.completed
        · cases r with
          | some a =>
            by_cases hq : s.queue.length < queueMaxSize
            · simp [prodResume, hc, hq, hs0]
            · simp [prodResume, hc, hq, hs0]
          | none => simp [prodResume, hc, hs0]
        · cases r <;> simp [prodResume, hc, hs0]
  | cons =>
    by_cases hs : s.stopped
    · simp [sStep, hs]
    · cases hq : s.queue <;> simp [sStep, consResume, hs, hq]
  | stop => simp [sStep]

theorem sRun_stopped (results : List (Option Nat)) :
    ∀ (evs : List SEvent) (s : SynthState),
      (sRun results s evs).stopped = (s.stopped || decide (SEvent.stop ∈ evs)) := by
  intro evs
  induction evs with
  | nil => intro s; simp [sRun]
  | cons e es ih =>
    intro s
    by_cases he : e = SEvent.stop
    · subst he
      simp [sRun, sStep, ih, List.mem_cons]
    · have h1 : ¬ SEvent.stop = e := fun hsym => he hsym.symm
      simp [sRun, ih, sStep_stopped, he, List.mem_cons, h1]

/-- Completion events only grow the completed set. -/
theorem sRun_completion (results : List (Option Nat)) :
    ∀ (order : List Nat) (s : SynthState),
      sRun results s (order.map SEvent.complete)
        = { s with completed := order.reverse ++ s.completed } := by
  intro order
  induction order with
  | nil => intro s; simp [sRun]
  | cons i rest ih => intro s; simp [sRun, sStep, ih]

/-- Canonical draining schedule: `k` producer/consumer rounds. -/
def drainSched : Nat → List SEvent
  | 0 => []
  | k + 1 => SEvent.prod :: SEvent.cons :: drainSched k

theorem drainSched_no_stop : ∀ k : Nat, SEvent.stop ∉ drainSched k := by
  intro k
  induction k with
  | zero => simp [drainSched]
  | succ k ih => simp [drainSched, ih]

/-- Once every request has completed, the canonical schedule delivers all
still-pending successful segments, in request order. -/
theorem drain_all (results : List (Option Nat)) :
    ∀ (k c : Nat) (compl deliv : List Nat),
      (∀ i, i < results.length → compl.contains i = true) →
      c + k = results.length →
      (sRun results
        { completed := compl, cursor := c, queue := [], delivered := deliv, stopped := false }
        (drainSched k)).delivered
        = deliv ++ (results.drop c).filterMap id := by
  intro k
  induction k with
  | zero =>
    intro c compl deliv hcompl hlen
    have hc : results.length ≤ c := by omega
    simp [drainSched, sRun, List.drop_eq_nil_of_le hc]
  | succ k ih =>
    intro c compl deliv hcompl hlen
    have hlt : c < results.length := by omega
    have hcont : compl.contains c = true := hcompl c hlt
    have hget : results.get? c = some (results.get ⟨c, hlt⟩) := List.get?_eq_get hlt
    have hdrop : results.drop c = results.get ⟨c, hlt⟩ :: results.drop (c + 1) := by
      rw [List.drop_eq_getElem_cons hlt, List.get_eq_getElem]
    simp only [drainSched, sRun]
    cases hres : results.get ⟨c, hlt⟩ with
    | some a =>
      have hmem : c ∈ compl := by simpa using hcont
      have hstep1 : sStep results
          { completed := compl, cursor := c, queue := [], delivered := deliv, stopped := false }
          SEvent.prod
          = { completed := compl, cursor := c + 1, queue := [a], delivered := deliv,
              stopped := false } := by
        rw [hres] at hget
        have hget2 : results[c]? = some (some a) := by
          rw [← List.get?_eq_getElem?]; exact hget
        simp [sStep, prodResume, hget2, hmem, queueMaxSize]
      have hstep2 : sStep results
          { completed := compl, cursor := c + 1, queue := [a], delivered := deliv,
            stopped := false } SEvent.cons
          = { completed := compl, cursor := c + 1, queue := [], delivered := deliv ++ [a],
              stopped := false } := rfl
      rw [hstep1, hstep2, ih (c + 1) compl (deliv ++ [a]) hcompl (by omega)]
      rw [hdrop, hres]
      simp
    | none =>
      have hmem : c ∈ compl := by simpa using hcont
      have hstep1 : sStep results
          { completed := compl, cursor := c, queue := [], delivered := deliv, stopped := false }
          SEvent.prod
          = { completed := compl, cursor := c + 1, queue := [], delivered := deliv,
              stopped := false } := by
        rw [hres] at hget
        have hget2 : results[c]? = some none := by
          rw [← List.get?_eq_getElem?]; exact hget
        simp [sStep, prodResume, hget2, hmem]
      have hstep2 : sStep results
          { completed := compl, cursor := c + 1, queue := [], delivered := deliv,
            stopped := false } SEvent.cons
          = { completed := compl, cursor := c + 1, queue := [], delivered := deliv,
              stopped := false } := rfl
      rw [hstep1, hstep2, ih (c + 1) compl deliv hcompl (by omega)]
      rw [hdrop, hres]
      simp

end VoiceAgent

namespace VoiceAgent

/-- Network completion events in an arbitrary arrival order. -/
def completionEvents (order : List Nat) : List SEvent := order.map SEvent.complete

/-- The observable outcome of one `SarvamTTSService.synthesize` call: the
audio segments the sink received, in order, and the return value — `False`
exactly when `_is_stopped` was set during the run (lines 322-331). -/
def sarvamSynthesize (results : List (Option Nat)) (evs : List SEvent) : List Nat × Bool :=
  ((sRun results initSynth evs).delivered, !(sRun results initSynth evs).stopped)

theorem completionEvents_no_stop (order : List Nat) :
    SEvent.stop ∉ completionEvents order := by
  intro h
  rcases List.mem_map.mp h with ⟨i, _, hi⟩
  cases hi

/-- Under any schedule, what the sink has received is an in-order prolongation
piece of the request-order list of successful segment audio. -/
theorem delivered_in_order (results : List (Option Nat)) (evs : List SEvent) :
    ∃ rest, (sRun results initSynth evs).delivered ++ rest = results.filterMap id := by
  have hinv := sRun_inv results evs initSynth (by simp [synthInv, initSynth])
  simp only [synthInv] at hinv
  refine ⟨(sRun results initSynth evs).queue
    ++ ((results.drop (sRun results initSynth evs).cursor).filterMap id), ?_⟩
  rw [← List.append_assoc, hinv, ← List.filterMap_append, List.take_append_drop]

/-- After all completions have arrived (in any order) and enough
producer/consumer rounds have run, the sink has received exactly the
successful segments, in request order, and the run was never stopped. -/
theorem canonical_run (results : List (Option Nat)) (order : List Nat)
    (hperm : order.Perm (List.range results.length)) :
    (sRun results initSynth (completionEvents order ++ drainSched results.length)).delivered
        = results.filterMap id ∧
    (sRun results initSynth (completionEvents order ++ drainSched results.length)).stopped
        = false := by
  constructor
  · rw [sRun_append]
    rw [show sRun results initSynth (completionEvents order)
          = { completed := order.reverse ++ [], cursor := 0, queue := [], delivered := [],
              stopped := false } from by rw [completionEvents, sRun_completion]; rfl]
    have hcompl : ∀ i, i < results.length →
        ((order.reverse ++ ([] : List Nat)).contains i = true) := by
      intro i hi
      have hmemo : i ∈ order := hperm.mem_iff.mpr (List.mem_range.mpr hi)
      simp [hmemo]
    rw [drain_all results results.length 0 (order.reverse ++ []) [] hcompl (by simp)]
    simp
  · rw [sRun_stopped]
    have h1 : SEvent.stop ∉ completionEvents order ++ drainSched results.length := by
      intro h
      rcases List.mem_append.mp h with h | h
      · exact completionEvents_no_stop order h
      · exact drainSched_no_stop results.length h
    simp [initSynth, h1]

/-- C5: the audio sink receives segment audio strictly in segment request
order: under every scheduler interleaving the delivered list is an in-order
initial piece of the request-order success list, and once all network
responses have arrived — in any arrival order whatsoever — the full
request-order list is delivered. -/
theorem C5_in_order_delivery (results : List (Option Nat)) (evs : List SEvent)
    (order : List Nat) (hperm : order.Perm (List.range results.length)) :
    (∃ rest, (sRun results initSynth evs).delivered ++ rest = results.filterMap id) ∧
    (sRun results initSynth (completionEvents order ++ drainSched results.length)).delivered
      = results.filterMap id :=
  ⟨delivered_in_order results evs, (canonical_run results order hperm).1⟩

/-- Witness for C5: three segments whose responses arrive out of order
(2, then 0, then 1) are still delivered in request order. -/
theorem C5_in_order_delivery_witness :
    (∃ rest, (sRun [some 10, none, some 30] initSynth
        [SEvent.complete 2, SEvent.prod, SEvent.complete 0, SEvent.prod, SEvent.cons]).delivered
        ++ rest = ([some 10, none, some 30] : List (Option Nat)).filterMap id) ∧
    (sRun [some 10, none, some 30] initSynth
        (completionEvents [2, 0, 1] ++ drainSched 3)).delivered
      = ([some 10, none, some 30] : List (Option Nat)).filterMap id :=
  C5_in_order_delivery [some 10, none, some 30]
    [SEvent.complete 2, SEvent.prod, SEvent.complete 0, SEvent.prod, SEvent.cons]
    [2, 0, 1] (by decide)

/-- C7: a failed segment (a `none` result) is skipped while all other
segments are still delivered in order, and the return value of `synthesize`
is `True` exactly when no stop was requested — it never depends on the
per-segment results. -/
theorem C7_failed_segment_skipped (results : List (Option Nat)) (order : List Nat)
    (evs : List SEvent) (hperm : order.Perm (List.range results.length)) :
    sarvamSynthesize results (completionEvents order ++ drainSched results.length)
        = (results.filterMap id, true) ∧
    (sarvamSynthesize results evs).2 = !(decide (SEvent.stop ∈ evs)) := by
  constructor
  · have h := canonical_run results order hperm
    simp [sarvamSynthesize, h.1, h.2]
  · simp [sarvamSynthesize, sRun_stopped, initSynth]

/-- Witness for C7: the middle segment fails, the two others still play, the
call returns `true`; and a run containing a stop event returns `false`. -/
theorem C7_failed_segment_skipped_witness :
    sarvamSynthesize [some 10, none, some 30] (completionEvents [1, 2, 0] ++ drainSched 3)
        = (([some 10, none, some 30] : List (Option Nat)).filterMap id, true) ∧
    (sarvamSynthesize [some 10, none, some 30] [SEvent.complete 0, SEvent.stop]).2
      = !(decide (SEvent.stop ∈ [SEvent.complete 0, SEvent.stop])) :=
  C7_failed_segment_skipped [some 10, none, some 30] [1, 2, 0]
    [SEvent.complete 0, SEvent.stop] (by decide)

end VoiceAgent

namespace VoiceAgent

/-! ### Cross-call cancellation (C6)

Two models of what happens when `synthesize` is called while a previous
`synthesize` on the same service instance is still running.

`SarvamTTSService` (sarvam_tts_service.py): `synthesize` (lines 109-123) does
not cancel anything — it only resets the shared flag `self._is_stopped` to
`False` (line 123).  `stop()` (lines 333-346) sets the flag and would cancel
`self._current_task`, but `synthesize` never assigns `_current_task`, so the
consumer loop of the prior call keeps running; it checks only the shared
`_is_stopped` flag before each delivery (lines 289, 303), which the new call
has just reset.

`CartesiaTTSService` (tts_service.py): `synthesize` (lines 200-221) first
`await self.stop()` (line 215), which cancels `self.current_task` (lines
433-438) and adds every active context to `cancelled_contexts` (line 441);
the streaming loop of the prior call checks its context against that set before
every chunk and aborts (lines 343-346, 389-392). -/

/-- Shared-instance state for two overlapping Sarvam `synthesize` calls. -/
structure SvState where
  isStopped : Bool
  oldPending : List Nat
  newStarted : Bool
  deliveredOld : List Nat
deriving DecidableEq, Repr

/-- Events: `stopCall` = `stop()` sets `_is_stopped`; `newCall` = a new
`synthesize` begins (resetting `_is_stopped`, cancelling nothing);
`oldDeliver` = the consumer of the prior call streams one buffered segment, which
it may do whenever `_is_stopped` is clear. -/
inductive SvEvent where
  | stopCall
  | newCall
  | oldDeliver
deriving DecidableEq, Repr

/-- One step of the Sarvam cross-call model; `none` marks an event the code
cannot perform in that state. -/
def svStep (s : SvState) : SvEvent → Option SvState
  | SvEvent.stopCall => some { s with isStopped := true }
  | SvEvent.newCall =>
    if s.newStarted then none
    else some { s with newStarted := true, isStopped := false }
  | SvEvent.oldDeliver =>
    match s.oldPending with
    | [] => none
    | a :: rest =>
      if s.isStopped then none
      else some { s with oldPending := rest, deliveredOld := s.deliveredOld ++ [a] }

def svRun (s : SvState) : List SvEvent → Option SvState
  | [] => some s
  | e :: es =>
    match svStep s e with
    | none => none
    | some s2 => svRun s2 es

/-- A prior Sarvam call still holds one buffered audio segment. -/
def svInit : SvState :=
  { isStopped := false, oldPending := [7], newStarted := false, deliveredOld := [] }

/-- State for a Cartesia `synthesize` overlapping a prior one. -/
structure CtState where
  oldCancelled : Bool
  oldPending : List Nat
  newStarted : Bool
  newPending : List Nat
  deliveredOld : List Nat
deriving DecidableEq, Repr

/-- Events: `newCall` = a new `synthesize` begins, having awaited `stop()`
(which cancels the prior task and marks its context cancelled) first;
`oldDeliver` = the prior call streams a chunk, possible only while it is not
cancelled; `newDeliver` = the new call streams one of its own chunks. -/
inductive CtEvent where
  | newCall
  | oldDeliver
  | newDeliver
deriving DecidableEq, Repr

def ctStep (s : CtState) : CtEvent → Option CtState
  | CtEvent.newCall =>
    if s.newStarted then none
    else some { s with newStarted := true, oldCancelled := true }
  | CtEvent.oldDeliver =>
    match s.oldPending with
    | [] => none
    | a :: rest =>
      if s.oldCancelled then none
      else some { s with oldPending := rest, deliveredOld := s.deliveredOld ++ [a] }
  | CtEvent.newDeliver =>
    if s.newStarted then
      match s.newPending with
      | [] => none
      | _ :: rest => some { s with newPending := rest }
    else none

def ctRun (s : CtState) : List CtEvent → Option CtState
  | [] => some s
  | e :: es =>
    match ctStep s e with
    | none => none
    | some s2 => ctRun s2 es

/-- A prior Cartesia call with one pending segment; the incoming call will
stream one segment of its own. -/
def ctInit : CtState :=
  { oldCancelled := false, oldPending := [7], newStarted := false, newPending := [5],
    deliveredOld := [] }

theorem ctRun_append (l₁ l₂ : List CtEvent) :
    ∀ s : CtState, ctRun s (l₁ ++ l₂)
      = match ctRun s l₁ with
        | none => none
        | some s1 => ctRun s1 l₂ := by
  induction l₁ with
  | nil => intro s; rfl
  | cons e es ih =>
    intro s
    simp only [List.cons_append, ctRun]
    cases ctStep s e with
    | none => rfl
    | some s2 => exact ih s2

/-- Once the prior context is cancelled it stays cancelled, and no event of a
valid continuation can be an old-call delivery. -/
theorem ctRun_cancelled_no_old :
    ∀ (evs : List CtEvent) (s s' : CtState), s.oldCancelled = true →
      ctRun s evs = some s' → CtEvent.oldDeliver ∉ evs := by
  intro evs
  induction evs with
  | nil => intro s s' _ _ h; cases h
  | cons e es ih =>
    intro s s' hc hrun
    simp only [ctRun] at hrun
    cases e with
    | newCall =>
      by_cases hn : s.newStarted
      · rw [ctStep, if_pos hn] at hrun; cases hrun
      · rw [ctStep, if_neg hn] at hrun
        intro hmem
        rcases List.mem_cons.mp hmem with h | h
        · cases h
        · exact ih _ s' (by rfl) hrun h
    | oldDeliver =>
      cases hp : s.oldPending with
      | nil => rw [ctStep, hp] at hrun; cases hrun
      | cons a rest =>
        rw [ctStep, hp] at hrun
        simp [hc] at hrun
    | newDeliver =>
      by_cases hn : s.newStarted
      · cases hp : s.newPending with
        | nil => rw [ctStep, if_pos hn, hp] at hrun; cases hrun
        | cons b rest =>
          rw [ctStep, if_pos hn, hp] at hrun
          intro hmem
          rcases List.mem_cons.mp hmem with h | h
          · cases h
          · exact ih { s with newPending := rest } s' hc hrun h
      · rw [ctStep, if_neg hn] at hrun; cases hrun

end VoiceAgent

namespace VoiceAgent

/-- C6 counterexample (Sarvam): a still-running prior `synthesize` holds one
buffered segment; the orchestrator calls `stop()` and then a new
`synthesize`, which merely resets the shared `_is_stopped` flag and cancels
nothing; the prior consumer then delivers its residual segment — after the
new call has started. -/
theorem C6_sarvam_residual_audio :
    svRun svInit [SvEvent.stopCall, SvEvent.newCall, SvEvent.oldDeliver]
      = some { isStopped := false, oldPending := [], newStarted := true,
               deliveredOld := [7] } := by decide

/-- C6 amended: for `CartesiaTTSService`, a new `synthesize` call does cancel
the still-running prior synthesis before starting — in every execution that
the code permits, no prior-call delivery happens after the new call has
started. -/
theorem C6_cartesia_cancels_prior (l₁ l₂ : List CtEvent) (s' : CtState)
    (h : ctRun ctInit (l₁ ++ CtEvent.newCall :: l₂) = some s') :
    CtEvent.oldDeliver ∉ l₂ := by
  rw [ctRun_append] at h
  cases h1 : ctRun ctInit l₁ with
  | none => rw [h1] at h; cases h
  | some s1 =>
    rw [h1] at h
    simp only [ctRun] at h
    by_cases hn : s1.newStarted
    · rw [ctStep, if_pos hn] at h; cases h
    · rw [ctStep, if_neg hn] at h
      exact ctRun_cancelled_no_old l₂ { s1 with newStarted := true, oldCancelled := true }
        s' rfl h

/-- Witness for C6: the prior Cartesia call delivers one segment, the new
call starts (cancelling it) and streams its own segment — a complete valid
execution in which nothing of the old call plays after the new call. -/
theorem C6_cartesia_cancels_prior_witness :
    CtEvent.oldDeliver ∉ [CtEvent.newDeliver] :=
  C6_cartesia_cancels_prior [CtEvent.oldDeliver] [CtEvent.newDeliver]
    { oldCancelled := true, oldPending := [], newStarted := true, newPending := [],
      deliveredOld := [7] } (by decide)

end VoiceAgent

namespace VoiceAgent

/-! ### Segment grouping (src/services/sarvam_tts_service.py, lines 179-247)

`synthesize` groups the refined sentence list before launching synthesis
requests.  The loop (lines 192-227) keeps a `current_group` accumulator with
target band 30-80 characters and a look-ahead flush test — but the block at
lines 225-227 (`if current_group: sentences.append(...)`) sits *inside* the
loop, not after it, and is not guarded by `should_flush`, so the accumulator
is emptied on every iteration.  Step 3 (lines 229-247) then splits any
segment longer than 200 characters on commas. -/

def targetMinSize : Nat := 30
def targetMaxSize : Nat := 80

/-- Python `str.strip()`: drop ASCII whitespace from both ends (the inputs
here never carry other Unicode whitespace). -/
def pyStrip (s : String) : String :=
  String.mk (((s.toList.dropWhile
      (fun c => c == ' ' || c == '\t' || c == '\n' || c == '\r')).reverse.dropWhile
      (fun c => c == ' ' || c == '\t' || c == '\n' || c == '\r')).reverse)

/-- The `should_flush` computation of lines 206-219 for the group `g` at
index `i` of the refined sentence list. -/
def shouldFlushAt (raws : List String) (i : Nat) (g : String) : Bool :=
  if targetMaxSize ≤ g.length then true
  else if targetMinSize ≤ g.length then
    if i + 1 < raws.length then
      decide (targetMaxSize < g.length + (pyStrip (raws.getD (i + 1) "")).length)
    else true
  else decide (i = raws.length - 1)

/-- The grouping loop of lines 192-227, including the unconditional flush of
lines 225-227 that runs on every iteration. -/
def groupLoop (raws : List String) : Nat → List String → List String → String → List String
  | _, [], sentences, _ => sentences
  | i, s :: rest, sentences, currentGroup =>
    let t := pyStrip s
    if t = "" then groupLoop raws (i + 1) rest sentences currentGroup
    else if sentences.isEmpty && decide (currentGroup = "") then
      groupLoop raws (i + 1) rest (sentences ++ [t]) currentGroup
    else
      let g := currentGroup ++ t ++ " "
      let afterFlush :=
        if shouldFlushAt raws i g then (sentences ++ [pyStrip g], "") else (sentences, g)
      let afterStray :=
        if afterFlush.2 ≠ "" then (afterFlush.1 ++ [pyStrip afterFlush.2], "") else afterFlush
      groupLoop raws (i + 1) rest afterStray.1 afterStray.2

/-- Python `s.strip(", ")`: drop the characters `,` and space from both ends
(line 242/245). -/
def stripCommaSpaceChars (s : String) : String :=
  String.mk (((s.toList.dropWhile (fun c => c == ',' || c == ' ')).reverse.dropWhile
    (fun c => c == ',' || c == ' ')).reverse)

/-- The comma re-chunking of lines 235-245. -/
def chunkSubsAux : List String → String → List String
  | [], current => if current ≠ "" then [stripCommaSpaceChars current] else []
  | sub :: rest, current =>
    let t := pyStrip sub
    if current.length + t.length < 100 then
      chunkSubsAux rest (current ++ t ++ ", ")
    else
      (if current ≠ "" then [stripCommaSpaceChars current] else []) ++
        chunkSubsAux rest (t ++ ", ")

/-- Step 3 of the segmenter (lines 230-247): only segments longer than 200
characters that contain a comma are re-split. -/
def splitLongSegment (s : String) : List String :=
  if decide (200 < s.length) && s.contains ',' then
    chunkSubsAux (s.splitOn ",") ""
  else [s]

/-- The full grouping stage applied to the refined sentence list
(lines 184-247): the output is the `final_segments` list that the per-segment
synthesis requests are launched from. -/
def groupSegments (raws : List String) : List String :=
  ((groupLoop raws 0 raws [] "").map splitLongSegment).flatten

/-- Four short sentences, as produced by the sentence split of
"Hello there my friend. This is a fine day. We are going out. Come along
with us now." (every sentence is under 50 characters, so the refinement
stage of lines 146-177 leaves them unchanged). -/
def c8Sentences : List String :=
  ["Hello there my friend.", "This is a fine day.", "We are going out.",
   "Come along with us now."]

/-- C8 (code bug): the grouping stage emits every sentence as its own
segment — the accumulator is flushed unconditionally each iteration by the
stray block at lines 225-227 — so a middle segment of 19 characters falls
below the 30-character minimum of the target band even though its neighbours
could have been grouped with it (19 + 1 + 17 + 1 + 23 = 61 ≤ 80). -/
theorem C8_grouping_defeated :
    groupSegments c8Sentences = c8Sentences ∧
    ("This is a fine day.".length < targetMinSize ∧
      "This is a fine day." ∈ groupSegments c8Sentences.dropLast) := by decide

end VoiceAgent

namespace VoiceAgent

/-! ### Enquiry storage (src/services/enquiry_storage.py, `update_enquiry`)

`update_enquiry` (lines 41-54) loads the whole record list, walks it, merges
the update dict into the *first* record whose `enquiry_id` equals the given
id (`enq.update(updates)`, a shallow top-level merge) and breaks; it then
rewrites the file and returns `True` — also when no record matched, in which
case the file is rewritten with identical content.  `False` is returned only
when an exception occurs (I/O or serialization), which the pure model has no
counterpart for.  Records are parameterized over the value type `V` since
values may be nested JSON. -/

/-- Python `dict.update`: existing top-level keys are overwritten in place,
new keys are appended in update order. -/
def dictUpdate {V : Type} (d u : List (String × V)) : List (String × V) :=
  d.map (fun kv =>
      match u.lookup kv.1 with
      | some w => (kv.1, w)
      | none => kv)
    ++ u.filter (fun kv => (d.lookup kv.1).isNone)

/-- The check of line 45: the enquiry_id entry of the record equals the given id. -/
def recordMatches {V : Type} [DecidableEq V] (id : V) (r : List (String × V)) : Bool :=
  decide (r.lookup "enquiry_id" = some id)

/-- The loop of lines 44-47: merge into the first matching record, break. -/
def updateFirstMatch {V : Type} [DecidableEq V] (id : V) (updates : List (String × V)) :
    List (List (String × V)) → List (List (String × V))
  | [] => []
  | r :: rest =>
    if recordMatches id r then dictUpdate r updates :: rest
    else r :: updateFirstMatch id updates rest

/-- `EnquiryStorage.update_enquiry` (lines 41-54): the updated store and the
returned boolean. -/
def update_enquiry {V : Type} [DecidableEq V] (store : List (List (String × V))) (id : V)
    (updates : List (String × V)) : List (List (String × V)) × Bool :=
  (updateFirstMatch id updates store, true)

theorem updateFirstMatch_no_match {V : Type} [DecidableEq V] (id : V)
    (updates : List (String × V)) :
    ∀ store : List (List (String × V)),
      (∀ r ∈ store, recordMatches id r = false) → updateFirstMatch id updates store = store := by
  intro store
  induction store with
  | nil => intro _; rfl
  | cons r rest ih =>
    intro h
    have hr : recordMatches id r = false := h r (List.mem_cons_self r rest)
    simp only [updateFirstMatch, hr, Bool.false_eq_true, if_false]
    rw [ih (fun r2 hr2 => h r2 (List.mem_cons_of_mem r hr2))]

theorem updateFirstMatch_found {V : Type} [DecidableEq V] (id : V)
    (updates : List (String × V)) :
    ∀ (pre : List (List (String × V))) (r : List (String × V))
      (post : List (List (String × V))),
      (∀ r2 ∈ pre, recordMatches id r2 = false) → recordMatches id r = true →
      updateFirstMatch id updates (pre ++ r :: post)
        = pre ++ dictUpdate r updates :: post := by
  intro pre
  induction pre with
  | nil =>
    intro r post _ hr
    simp [updateFirstMatch, hr]
  | cons p rest ih =>
    intro r post hpre hr
    have hp : recordMatches id p = false := hpre p (List.mem_cons_self p rest)
    simp only [List.cons_append, updateFirstMatch, hp, Bool.false_eq_true, if_false]
    rw [List.append_eq, ih r post (fun r2 hr2 => hpre r2 (List.mem_cons_of_mem p hr2)) hr]

/-- A store holding a single enquiry record, as `save_enquiry` creates it. -/
def c10Store : List (List (String × String)) :=
  [[("enquiry_id", "a"), ("status", "pending")]]

/-- C10 counterexample: updating an id that matches no stored record leaves
the data unchanged but returns `True` — not the failure the claim states. -/
theorem C10_unknown_id_returns_true :
    update_enquiry c10Store "b" [("status", "failed")] = (c10Store, true) := by decide

/-- C10 amended: an unknown id leaves every stored record unchanged and the
call reports success (`true`); a matching id receives a shallow top-level
merge of the update keys into the first matching record, also reported
`true`. -/
theorem C10_update_enquiry_merge {V : Type} [DecidableEq V]
    (store : List (List (String × V))) (id : V) (updates : List (String × V)) :
    ((∀ r ∈ store, recordMatches id r = false) →
      update_enquiry store id updates = (store, true)) ∧
    (∀ (pre : List (List (String × V))) (r : List (String × V))
        (post : List (List (String × V))),
      store = pre ++ r :: post →
      (∀ r2 ∈ pre, recordMatches id r2 = false) →
      recordMatches id r = true →
      update_enquiry store id updates = (pre ++ dictUpdate r updates :: post, true)) := by
  constructor
  · intro h
    simp only [update_enquiry, updateFirstMatch_no_match id updates store h]
  · rintro pre r post rfl hpre hr
    simp only [update_enquiry, updateFirstMatch_found id updates pre r post hpre hr]

/-- Witness for C10: the unknown id "b" is a successful no-op; the known id
"a" gets `status` overwritten and `call_sid` appended. -/
theorem C10_update_enquiry_merge_witness :
    update_enquiry c10Store "b" [("status", "failed")] = (c10Store, true) ∧
    update_enquiry c10Store "a" [("status", "completed"), ("call_sid", "x")]
      = ([[("enquiry_id", "a"), ("status", "completed"), ("call_sid", "x")]], true) := by
  constructor
  · exact (C10_update_enquiry_merge c10Store "b" [("status", "failed")]).1 (by decide)
  · have h := (C10_update_enquiry_merge c10Store "a"
      [("status", "completed"), ("call_sid", "x")]).2
      [] [("enquiry_id", "a"), ("status", "pending")] [] rfl (by decide) (by decide)
    rw [h]
    decide

end VoiceAgent
